import Mathlib

/-!
Verification development for the NAStool history-sync import pipeline
(`app/plugins/nastoolsync/__init__.py`).

The Python code is shallowly embedded: each method of the `NAStoolSync`
plugin class becomes an executable Lean function.  Store writes
(`truncate`, `add`, `save`, `update_config`) are modelled as an emitted
trace of `StoreOp` values; a Python exception escaping a function is
modelled as a `PyErr` in the second component of the result (the trace
collected before the exception is kept, since those writes did happen).

Python string primitives used by the plugin (`str.replace`,
`str.isdigit`, `int(...)`, `str.split`, `os.path.basename`,
`json.loads`) are modelled explicitly below with Python semantics
(`str.replace` replaces every non-overlapping occurrence, left to
right; an empty pattern interleaves the replacement between characters).
-/

/-- Python `str.isdigit` restricted to ASCII decimal digits (the plugin
only ever feeds it downloader indices). Empty string is not a digit. -/
def pyIsdigit (s : String) : Bool :=
  !s.data.isEmpty && s.data.all Char.isDigit

/-- Decimal digits to a natural number, most significant first. -/
def digitsToNat (ds : List Char) : Nat :=
  ds.foldl (fun acc c => acc * 10 + (c.toNat - 48)) 0

/-- Whitespace recognized by Python `str.strip` / `int(...)`. -/
def isPySpace (c : Char) : Bool :=
  c = ' ' || c = '\t' || c = '\n' || c = '\r' || c = Char.ofNat 11 || c = Char.ofNat 12

/-- Python `str.strip()` on the character list. -/
def pyStripChars (l : List Char) : List Char :=
  ((l.dropWhile isPySpace).reverse.dropWhile isPySpace).reverse

/-- Python `s.split(sep)` for a single-character separator (every
separator the plugin uses — `":"`, `"\n"`, `"-"` — is one character).
`"".split(sep)` is `[""]`, and separators at the ends produce empty
fields, as in Python. -/
def splitChar (sep : Char) : List Char → List (List Char)
  | [] => [[]]
  | c :: rest =>
    let r := splitChar sep rest
    if c = sep then [] :: r
    else
      match r with
      | [] => [[c]]
      | g :: gs => (c :: g) :: gs

/-- String-level wrapper for `splitChar`. -/
def pySplit (s : String) (sep : Char) : List String :=
  (splitChar sep s.data).map String.mk

/-- Python `int(s)` on strings: optional surrounding whitespace, optional
sign, then decimal digits; anything else raises `ValueError` (`none`
here).  Numeric-literal underscores and non-ASCII digits are not
modelled (never exercised by the plugin). -/
def pyInt (s : String) : Option Int :=
  match pyStripChars s.data with
  | [] => none
  | '-' :: ds =>
    if !ds.isEmpty && ds.all Char.isDigit then some (-(digitsToNat ds : Int)) else none
  | '+' :: ds =>
    if !ds.isEmpty && ds.all Char.isDigit then some ((digitsToNat ds : Int)) else none
  | ds =>
    if ds.all Char.isDigit then some ((digitsToNat ds : Int)) else none

/-- Python `"".join`-style interleaving used by `str.replace` with an
empty pattern: `"ab".replace("", "x") = "xaxbx"`. -/
def interleave (rep : List Char) : List Char → List Char
  | [] => rep
  | c :: rest => rep ++ c :: interleave rep rest

/-- Fuel-driven core of Python `str.replace` for a non-empty pattern:
greedy left-to-right replacement of every non-overlapping occurrence.
The fuel is an upper bound on the input length, so the fuel-0 row is
never reached on the inputs `pyReplace` supplies. -/
def replFuel (pat rep : List Char) : Nat → List Char → List Char
  | _, [] => []
  | 0, l => l
  | n + 1, c :: rest =>
    if pat.isPrefixOf (c :: rest) then
      rep ++ replFuel pat rep n ((c :: rest).drop pat.length)
    else
      c :: replFuel pat rep n rest

/-- Python `s.replace(pat, rep)` (no count argument, as in the plugin):
every occurrence is replaced. -/
def pyReplace (s pat rep : String) : String :=
  if pat.data.isEmpty then String.mk (interleave rep.data s.data)
  else String.mk (replFuel pat.data rep.data s.data.length s.data)

/-- `os.path.basename` on POSIX paths: the part after the last slash. -/
def pyBasename (p : String) : String :=
  (pySplit p '/').getLastD ""

/-!
## JSON model

`json.loads` as called on `PLUGIN_HISTORY` values.  Numbers are modelled
as integers only (the plugin's rewritten fields hold small downloader
indices); floats, `\uXXXX` escapes and the non-strict `NaN`/`Infinity`
literals are out of the model — documents using them are never produced
by the records the claims are about.  Objects are insertion-ordered
field lists, as Python dicts are.
-/

inductive Json where
  | null
  | bool (b : Bool)
  | num (n : Int)
  | str (s : String)
  | arr (items : List Json)
  | obj (fields : List (String × Json))

/-- One-character JSON escapes (`\uXXXX` not modelled). -/
def escChar (e : Char) : Option Char :=
  if e = 'n' then some '\n'
  else if e = 't' then some '\t'
  else if e = 'r' then some '\r'
  else if e = 'b' then some (Char.ofNat 8)
  else if e = 'f' then some (Char.ofNat 12)
  else if e = '"' || e = '\\' || e = '/' then some e
  else none

/-- JSON whitespace skipping. -/
def skipWs (cs : List Char) : List Char :=
  cs.dropWhile (fun c => c = ' ' || c = '\t' || c = '\n' || c = '\r')

/-- Body of a JSON string after the opening quote: returns the decoded
characters and the remainder after the closing quote. -/
def parseStringChars : List Char → Option (List Char × List Char)
  | [] => none
  | '"' :: rest => some ([], rest)
  | '\\' :: e :: rest =>
    match escChar e, parseStringChars rest with
    | some c, some (s, r) => some (c :: s, r)
    | _, _ => none
  | c :: rest =>
    match parseStringChars rest with
    | some (s, r) => some (c :: s, r)
    | none => none

/-- Longest digit run at the head of the input, and the remainder. -/
def takeDigits (cs : List Char) : List Char × List Char :=
  (cs.takeWhile Char.isDigit, cs.dropWhile Char.isDigit)

/-- A number continuing with `.`/`e`/`E` would be a float, which the
model rejects rather than misreads. -/
def isFloatStart : List Char → Bool
  | [] => false
  | c :: _ => c = '.' || c = 'e' || c = 'E'

/-- Integer JSON numbers. -/
def parseIntJson (cs : List Char) : Option (Int × List Char) :=
  match cs with
  | '-' :: rest =>
    let (ds, r) := takeDigits rest
    if ds.isEmpty || isFloatStart r then none
    else some (-(digitsToNat ds : Int), r)
  | _ =>
    let (ds, r) := takeDigits cs
    if ds.isEmpty || isFloatStart r then none
    else some ((digitsToNat ds : Int), r)

mutual

/-- Recursive-descent JSON value; the fuel dominates the nesting depth
(`jsonLoads` passes twice the input length). -/
def parseJson : Nat → List Char → Option (Json × List Char)
  | 0, _ => none
  | fuel + 1, cs =>
    match skipWs cs with
    | 'n' :: 'u' :: 'l' :: 'l' :: rest => some (Json.null, rest)
    | 't' :: 'r' :: 'u' :: 'e' :: rest => some (Json.bool true, rest)
    | 'f' :: 'a' :: 'l' :: 's' :: 'e' :: rest => some (Json.bool false, rest)
    | '"' :: rest =>
      match parseStringChars rest with
      | some (s, r) => some (Json.str (String.mk s), r)
      | none => none
    | '[' :: rest =>
      match skipWs rest with
      | ']' :: r2 => some (Json.arr [], r2)
      | cs2 => parseArrItems fuel cs2
    | '{' :: rest =>
      match skipWs rest with
      | '}' :: r2 => some (Json.obj [], r2)
      | cs2 => parseObjItems fuel cs2
    | cs2 => (parseIntJson cs2).map (fun p => (Json.num p.1, p.2))

/-- Comma-separated array items up to the closing bracket. -/
def parseArrItems : Nat → List Char → Option (Json × List Char)
  | 0, _ => none
  | fuel + 1, cs =>
    match parseJson fuel cs with
    | none => none
    | some (v, r) =>
      match skipWs r with
      | ',' :: r2 =>
        match parseArrItems fuel r2 with
        | some (Json.arr items, r3) => some (Json.arr (v :: items), r3)
        | _ => none
      | ']' :: r2 => some (Json.arr [v], r2)
      | _ => none

/-- Comma-separated `"key": value` members up to the closing brace. -/
def parseObjItems : Nat → List Char → Option (Json × List Char)
  | 0, _ => none
  | fuel + 1, cs =>
    match skipWs cs with
    | '"' :: rest =>
      match parseStringChars rest with
      | none => none
      | some (k, r) =>
        match skipWs r with
        | ':' :: r2 =>
          match parseJson fuel r2 with
          | none => none
          | some (v, r3) =>
            match skipWs r3 with
            | ',' :: r4 =>
              match parseObjItems fuel r4 with
              | some (Json.obj fs, r5) => some (Json.obj ((String.mk k, v) :: fs), r5)
              | _ => none
            | '}' :: r4 => some (Json.obj [(String.mk k, v)], r4)
            | _ => none
        | _ => none
    | _ => none

end

/-- `json.loads`: the whole input (modulo surrounding whitespace) must be
one JSON document; `none` models `json.JSONDecodeError`. -/
def jsonLoads (s : String) : Option Json :=
  match parseJson (2 * s.data.length + 2) s.data with
  | some (v, rest) => if (skipWs rest).isEmpty then some v else none
  | none => none

/-!
## Data model

Row shapes as the plugin reads them from the NAStool sqlite database and
writes them to the MoviePilot stores.  sqlite `NULL`s arriving in text
columns behave, for every check the plugin performs (`if not msrc`,
`str(msite)` comparisons), like empty strings, and are modelled as `""`;
the one column whose `NULL`-ness the pipeline genuinely distinguishes
(`SAVE_PATH`, filtered by the download query's `WHERE` clause and then
passed to `os.path.basename`) is kept as an `Option`.
-/

/-- One row of the transfer-history query (`get_nt_transfer_history`):
the `SELECT` column list in source order.  The query's literal
translations (mode labels, the anime type fold) and the download join
are part of the query text and are abstracted as the already-projected
field values. -/
structure TransferRow where
  src : String
  dest : String
  mode : String
  type : String
  category : String
  title : String
  year : String
  tmdbid : String
  seasons : String
  episodes : String
  image : String
  download_hash : String
  date : String
deriving DecidableEq, Repr

/-- One row of `select * from PLUGIN_HISTORY`: the plugin uses columns
1, 2, 3 (id, key, value); column 0 (the numeric rowid) is never read and
is omitted. -/
structure PluginRow where
  plugin_id : String
  key : String
  value : String
deriving DecidableEq, Repr

/-- One row of the download-history query's column list
(`get_nt_download_history`), before its `WHERE SAVE_PATH IS NOT NULL`
filter. -/
structure NtDownloadRow where
  save_path : Option String
  type : String
  title : String
  year : String
  tmdbid : String
  seasons : String
  episodes : String
  poster : String
  download_id : String
  torrent : String
  desc : String
  site : String
deriving DecidableEq, Repr

/-- The keyword arguments of `self._downloadhistory.add(...)`. -/
structure DownloadRecord where
  path : String
  type : String
  title : String
  year : String
  tmdbid : String
  seasons : String
  episodes : String
  image : String
  download_hash : String
  torrent_name : String
  torrent_description : String
  torrent_site : String
deriving DecidableEq, Repr

/-- The plugin's configuration dict.  Text options absent from the dict
(`config.get` returning `None`) are Python-falsy exactly like `""` and
are modelled as `""`. -/
structure Config where
  clear : Bool
  nt_db_path : String
  path : String
  downloader : String
  site : String
  transfer : Bool
  plugin : Bool
  download : Bool
deriving DecidableEq, Repr

/-- The dynamic type of `plugin_value`: a `str` fresh from the database,
or a decoded JSON value after the first `json.loads`. -/
inductive PVal where
  | s (raw : String)
  | j (v : Json)

/-- The Python exceptions the pipeline can raise. -/
inductive PyErr where
  | jsonDecodeError
  | valueError
  | attributeError
  | typeError
  | indexError
deriving DecidableEq, Repr

/-- Writes issued against the MoviePilot stores, in program order. -/
inductive StoreOp where
  | transferTruncate
  | transferAdd (r : TransferRow)
  | pluginTruncate
  | pluginSave (plugin_id : String) (key : String) (value : PVal)
  | downloadTruncate
  | downloadAdd (r : DownloadRecord)
  | updateConfig (c : Config)

/-- The result of a stateful pipeline stage: the store writes it issued,
and the exception that escaped it, if any. -/
abbrev RunResult := List StoreOp × Option PyErr

/-!
## Dynamic JSON access helpers (Python semantics)
-/

/-- `d.get(k)` on a decoded JSON object. -/
def lookupField (fields : List (String × Json)) (k : String) : Option Json :=
  (fields.find? (fun p => p.1 == k)).map (fun p => p.2)

/-- `d[k] = v` on a Python dict: overwrite in place, else append. -/
def setField (fields : List (String × Json)) (k : String) (v : Json) : List (String × Json) :=
  if fields.any (fun p => p.1 == k) then
    fields.map (fun p => if p.1 == k then (k, v) else p)
  else fields ++ [(k, v)]

/-- `str(x)` as applied to `d.get(...)` results before the `isdigit`
check.  `str` of a Python dict or list is its repr, which always starts
with a brace or bracket and is therefore never all-digits; a fixed
placeholder keeps that property without reproducing the full repr. -/
def pyJsonStr : Json → String
  | Json.null => "None"
  | Json.bool true => "True"
  | Json.bool false => "False"
  | Json.num n => toString n
  | Json.str s => s
  | Json.obj _ => "\x7b...\x7d"
  | Json.arr _ => "[...]"

/-- `str(d.get(k))`: a missing key prints as `"None"`. -/
def shownField (fields : List (String × Json)) (k : String) : String :=
  match lookupField fields k with
  | none => "None"
  | some v => pyJsonStr v

/-- `int(x)` on a decoded JSON value (only reached on values whose `str`
passed `isdigit`, where Python's `int` cannot raise). -/
def jsonIntVal : Json → Option Int
  | Json.num n => some n
  | Json.str s => pyInt s
  | Json.bool b => some (if b then 1 else 0)
  | _ => none

/-!
## Legacy extractors

Each `get_nt_*_history` static method runs one query and returns the
fetched rows, or `None` (after `logger.error`) when `fetchall` came back
empty — note `None`, not an empty list.  The query bodies are modelled
at result level: the download query's `WHERE SAVE_PATH IS NOT NULL` is
the one clause a claim depends on and is embedded as a filter.
-/

/-- `get_nt_transfer_history`. -/
def get_nt_transfer_history (rows : List TransferRow) : Option (List TransferRow) :=
  if rows.isEmpty then none else some rows

/-- `get_nt_plugin_history`. -/
def get_nt_plugin_history (rows : List PluginRow) : Option (List PluginRow) :=
  if rows.isEmpty then none else some rows

/-- `get_nt_download_history`: applies `WHERE SAVE_PATH IS NOT NULL`,
then the same emptiness check as the other extractors. -/
def get_nt_download_history (table : List NtDownloadRow) : Option (List NtDownloadRow) :=
  let rows := table.filter (fun r => r.save_path.isSome)
  if rows.isEmpty then none else some rows

/-!
## Field remapping loops

Verbatim embeddings of the three in-loop remapping passes.  Malformed
rule lines surface exactly where Python would raise `IndexError`
(`sub_xxx[1]`): the path loop indexes `[1]` unconditionally per line,
the site and downloader loops only on a match.
-/

/-- The body of the path-mapping loop of `sync_transfer_history`
(lines 255-259) applied to one value:
`value.replace(sub_paths[0], sub_paths[1]).replace('\\', '/')` for each
configured line in order. -/
def remapPathLoop : List String → String → Except PyErr String
  | [], v => Except.ok v
  | line :: rest, v =>
    let sub := pySplit line ':'
    match sub.get? 1 with
    | none => Except.error PyErr.indexError
    | some p1 => remapPathLoop rest (pyReplace (pyReplace v (sub.headD "") p1) "\\" "/")

/-- Path remapping of one value under the raw `path` config text,
including the `if self._path:` truthiness guard. -/
def remapPathValue (pathText : String) (v : String) : Except PyErr String :=
  if pathText = "" then Except.ok v
  else remapPathLoop (pySplit pathText '\n') v

/-- Both paths of one transfer row through the same loop.  The source
interleaves the two updates inside one pass over the rules; since the
two accumulators never interact, that equals remapping each value by the
full rule list in order, which is how it is stated here. -/
def remapPaths (pathText : String) (src dest : String) : Except PyErr (String × String) :=
  match remapPathValue pathText src with
  | Except.error e => Except.error e
  | Except.ok s =>
    match remapPathValue pathText dest with
    | Except.error e => Except.error e
    | Except.ok d => Except.ok (s, d)

/-- The site-mapping loop of `sync_download_history` (lines 194-199):
each line whose source side equals the current value rewrites it, so
later lines compare against the already-rewritten value. -/
def remapSiteLoop : List String → String → Except PyErr String
  | [], v => Except.ok v
  | line :: rest, v =>
    let sub := pySplit line ':'
    if v = sub.headD "" then
      match sub.get? 1 with
      | none => Except.error PyErr.indexError
      | some d => remapSiteLoop rest d
    else remapSiteLoop rest v

/-- Site remapping of one value under the raw `site` config text,
including the `if self._site:` truthiness guard. -/
def remapSiteValue (siteText : String) (v : String) : Except PyErr String :=
  if siteText = "" then Except.ok v
  else remapSiteLoop (pySplit siteText '\n') v

/-!
## Plugin-record processing (`sync_plugin_history`)
-/

/-- Lines 136-147, one downloader rule applied to one `TorrentTransfer`
record: the composite-key rewrite via `str.replace`, then the lazy
`json.loads` of the value, then the `to_download` field rewrite.
`plugin_value.get` on a decoded non-dict raises `AttributeError`. -/
def ttRuleStep (sub : List String) (key : String) (val : PVal) :
    Except PyErr (String × PVal) :=
  let keys := pySplit key '-'
  let k0 := keys.headD ""
  let keyStep : Except PyErr String :=
    if pyIsdigit k0 then
      match pyInt (sub.headD "") with
      | none => Except.error PyErr.valueError
      | some n =>
        if pyInt k0 = some n then
          match sub.get? 1 with
          | none => Except.error PyErr.indexError
          | some dst => Except.ok (pyReplace key k0 dst)
        else Except.ok key
    else Except.ok key
  match keyStep with
  | Except.error e => Except.error e
  | Except.ok key2 =>
    let decoded : Except PyErr Json :=
      match val with
      | PVal.s raw =>
        match jsonLoads raw with
        | none => Except.error PyErr.jsonDecodeError
        | some j => Except.ok j
      | PVal.j j => Except.ok j
    match decoded with
    | Except.error e => Except.error e
    | Except.ok (Json.obj fields) =>
      if pyIsdigit (shownField fields "to_download") then
        match pyInt (sub.headD "") with
        | none => Except.error PyErr.valueError
        | some n =>
          if (lookupField fields "to_download").bind jsonIntVal = some n then
            match sub.get? 1 with
            | none => Except.error PyErr.indexError
            | some dst =>
              Except.ok (key2, PVal.j (Json.obj (setField fields "to_download" (Json.str dst))))
          else Except.ok (key2, PVal.j (Json.obj fields))
      else Except.ok (key2, PVal.j (Json.obj fields))
    | Except.ok _ => Except.error PyErr.attributeError

/-- One element of the decoded `IYUUAutoSeed` array under one rule
(lines 153-156): items must be dicts or `value.get` raises. -/
def iyuuItemStep (sub : List String) : Json → Except PyErr Json
  | Json.obj fields =>
    if pyIsdigit (shownField fields "downloader") then
      match pyInt (sub.headD "") with
      | none => Except.error PyErr.valueError
      | some n =>
        if (lookupField fields "downloader").bind jsonIntVal = some n then
          match sub.get? 1 with
          | none => Except.error PyErr.indexError
          | some dst => Except.ok (Json.obj (setField fields "downloader" (Json.str dst)))
        else Except.ok (Json.obj fields)
    else Except.ok (Json.obj fields)
  | _ => Except.error PyErr.attributeError

/-- `mapM` over the array items, keeping program order of failures. -/
def iyuuItems (sub : List String) : List Json → Except PyErr (List Json)
  | [] => Except.ok []
  | item :: rest =>
    match iyuuItemStep sub item with
    | Except.error e => Except.error e
    | Except.ok item2 =>
      match iyuuItems sub rest with
      | Except.error e => Except.error e
      | Except.ok rest2 => Except.ok (item2 :: rest2)

/-- Lines 150-156, one downloader rule applied to one `IYUUAutoSeed`
record: lazy `json.loads`, then `for value in plugin_value`.  Iterating
a decoded dict yields its keys (strings), so a non-empty dict raises
`AttributeError` at `value.get`; an empty dict or string iterates zero
times; a number, bool or null is not iterable (`TypeError`). -/
def iyuuRuleStep (sub : List String) (val : PVal) : Except PyErr PVal :=
  let decoded : Except PyErr Json :=
    match val with
    | PVal.s raw =>
      match jsonLoads raw with
      | none => Except.error PyErr.jsonDecodeError
      | some j => Except.ok j
    | PVal.j j => Except.ok j
  match decoded with
  | Except.error e => Except.error e
  | Except.ok (Json.arr items) =>
    match iyuuItems sub items with
    | Except.error e => Except.error e
    | Except.ok items2 => Except.ok (PVal.j (Json.arr items2))
  | Except.ok (Json.obj []) => Except.ok (PVal.j (Json.obj []))
  | Except.ok (Json.obj _) => Except.error PyErr.attributeError
  | Except.ok (Json.str "") => Except.ok (PVal.j (Json.str ""))
  | Except.ok (Json.str _) => Except.error PyErr.attributeError
  | Except.ok _ => Except.error PyErr.typeError

/-- The `for downloader in downloaders` loop of `sync_plugin_history`
for one record: each rule line is split on `":"` and the id-specific
branch applied. -/
def processRules (pid : String) : List String → String → PVal → Except PyErr (String × PVal)
  | [], key, val => Except.ok (key, val)
  | line :: rest, key, val =>
    let sub := pySplit line ':'
    let afterTT : Except PyErr (String × PVal) :=
      if pid = "TorrentTransfer" then ttRuleStep sub key val else Except.ok (key, val)
    match afterTT with
    | Except.error e => Except.error e
    | Except.ok (key2, val2) =>
      let afterIyuu : Except PyErr PVal :=
        if pid = "IYUUAutoSeed" then iyuuRuleStep sub val2 else Except.ok val2
      match afterIyuu with
      | Except.error e => Except.error e
      | Except.ok val3 => processRules pid rest key2 val3

/-- Lines 126-156 for one `PLUGIN_HISTORY` row: the downloader mapping
is applied only when the `downloader` config text is truthy. -/
def processRow (downloaderText : String) (row : PluginRow) : Except PyErr (String × PVal) :=
  if downloaderText = "" then Except.ok (row.key, PVal.s row.value)
  else processRules row.plugin_id (pySplit downloaderText '\n') row.key (PVal.s row.value)

/-- The record loop of `sync_plugin_history`: one `save` per record, in
order, stopping at the first record whose processing raises. -/
def syncPluginRows (downloaderText : String) : List PluginRow → RunResult
  | [] => ([], none)
  | row :: rest =>
    match processRow downloaderText row with
    | Except.error e => ([], some e)
    | Except.ok (key, val) =>
      let r := syncPluginRows downloaderText rest
      (StoreOp.pluginSave row.plugin_id key val :: r.1, r.2)

/-- `sync_plugin_history(self, plugin_history)`: optional truncate, then
the record loop.  A `None` argument (empty source) raises `TypeError`
at the `for` statement, after the truncate already happened. -/
def sync_plugin_history (clear : Bool) (downloaderText : String)
    (input : Option (List PluginRow)) : RunResult :=
  let ops0 : List StoreOp := if clear then [StoreOp.pluginTruncate] else []
  match input with
  | none => (ops0, some PyErr.typeError)
  | some rows =>
    let r := syncPluginRows downloaderText rows
    (ops0 ++ r.1, r.2)

/-!
## Transfer and download sync
-/

/-- The record loop of `sync_transfer_history` (lines 235-277): rows
with a falsy raw source or destination are skipped before any remapping;
kept rows are path-remapped and written with all other columns verbatim. -/
def syncTransferRows (pathText : String) : List TransferRow → RunResult
  | [] => ([], none)
  | r :: rest =>
    if r.src == "" || r.dest == "" then syncTransferRows pathText rest
    else
      match remapPaths pathText r.src r.dest with
      | Except.error e => ([], some e)
      | Except.ok (src2, dest2) =>
        let res := syncTransferRows pathText rest
        (StoreOp.transferAdd { r with src := src2, dest := dest2 } :: res.1, res.2)

/-- `sync_transfer_history(self, transfer_history)`. -/
def sync_transfer_history (clear : Bool) (pathText : String)
    (input : Option (List TransferRow)) : RunResult :=
  let ops0 : List StoreOp := if clear then [StoreOp.transferTruncate] else []
  match input with
  | none => (ops0, some PyErr.typeError)
  | some rows =>
    let r := syncTransferRows pathText rows
    (ops0 ++ r.1, r.2)

/-- The record loop of `sync_download_history` (lines 179-214): site
remap, then `add` with `os.path.basename(mpath)`.  A `NULL` save path
(impossible after the extractor's `WHERE` filter) would raise
`TypeError` inside `os.path.basename`. -/
def syncDownloadRows (siteText : String) : List NtDownloadRow → RunResult
  | [] => ([], none)
  | r :: rest =>
    match remapSiteValue siteText r.site with
    | Except.error e => ([], some e)
    | Except.ok site2 =>
      match r.save_path with
      | none => ([], some PyErr.typeError)
      | some p =>
        let res := syncDownloadRows siteText rest
        (StoreOp.downloadAdd
            { path := pyBasename p, type := r.type, title := r.title, year := r.year,
              tmdbid := r.tmdbid, seasons := r.seasons, episodes := r.episodes,
              image := r.poster, download_hash := r.download_id, torrent_name := r.torrent,
              torrent_description := r.desc, torrent_site := site2 } :: res.1,
          res.2)

/-- `sync_download_history(self, download_history)`. -/
def sync_download_history (clear : Bool) (siteText : String)
    (input : Option (List NtDownloadRow)) : RunResult :=
  let ops0 : List StoreOp := if clear then [StoreOp.downloadTruncate] else []
  match input with
  | none => (ops0, some PyErr.typeError)
  | some rows =>
    let r := syncDownloadRows siteText rows
    (ops0 ++ r.1, r.2)

/-!
## The coordinator (`init_plugin`)
-/

/-- The external database, as the three category queries see it.  The
download table is pre-filter (its `WHERE` clause lives in the
extractor); the other two hold the already-projected query results. -/
structure NtDb where
  transfer_rows : List TransferRow
  plugin_rows : List PluginRow
  download_rows : List NtDownloadRow
deriving DecidableEq, Repr

/-- The dict passed to `self.update_config` at lines 88-99: `clear` and
the three category flags forced to `False`, the db path and the three
rule texts carried over. -/
def update_config_payload (cfg : Config) : Config :=
  { clear := false, nt_db_path := cfg.nt_db_path, path := cfg.path,
    downloader := cfg.downloader, site := cfg.site,
    transfer := false, plugin := false, download := false }

/-- `init_plugin` after the config fields are read (lines 63-99): when
the db path is truthy and at least one category is enabled, run the
enabled categories in source order — transfer, plugin, download — with
no exception handling between them, then persist the updated config.
An exception in any category escapes, skipping everything after it. -/
def init_plugin (cfg : Config) (db : NtDb) : RunResult :=
  if (cfg.nt_db_path != "") && (cfg.transfer || cfg.plugin || cfg.download) then
    match
      (if cfg.transfer then
        sync_transfer_history cfg.clear cfg.path (get_nt_transfer_history db.transfer_rows)
      else ([], none)) with
    | (ops1, some e) => (ops1, some e)
    | (ops1, none) =>
      match
        (if cfg.plugin then
          sync_plugin_history cfg.clear cfg.downloader (get_nt_plugin_history db.plugin_rows)
        else ([], none)) with
      | (ops2, some e) => (ops1 ++ ops2, some e)
      | (ops2, none) =>
        match
          (if cfg.download then
            sync_download_history cfg.clear cfg.site (get_nt_download_history db.download_rows)
          else ([], none)) with
        | (ops3, some e) => (ops1 ++ ops2 ++ ops3, some e)
        | (ops3, none) =>
          (ops1 ++ ops2 ++ ops3 ++ [StoreOp.updateConfig (update_config_payload cfg)], none)
  else ([], none)

/-- `get_state` (lines 397-398): `True if self._transfer or self._plugin
or self._download else False` over the fields `init_plugin` stored. -/
def get_state (cfg : Config) : Bool :=
  cfg.transfer || cfg.plugin || cfg.download

/-!
## Parsed-rule formulations

Structured counterparts of the in-loop rule handling, used to state what
the loops compute: a rule text parses into `source ↦ destination` pairs
(erroring exactly where the loops would raise `IndexError` on a line
with no `":"`), and each loop is a left fold of its per-rule rewrite.
-/

/-- Parse newline-delimited `source:destination` rule text the way the
loops consume it: `parts[0]` and `parts[1]` of each line's `":"`-split
(extra `":"` fields beyond the second are ignored, as in the source). -/
def parseRuleLines (text : String) : Except PyErr (List (String × String)) :=
  if text = "" then Except.ok []
  else parseLinesGo (pySplit text '\n')
where
  parseLinesGo : List String → Except PyErr (List (String × String))
    | [] => Except.ok []
    | line :: rest =>
      let sub := pySplit line ':'
      match sub.get? 1 with
      | none => Except.error PyErr.indexError
      | some p1 =>
        match parseLinesGo rest with
        | Except.error e => Except.error e
        | Except.ok rs => Except.ok ((sub.headD "", p1) :: rs)

/-- One path rule applied to one value: replace every occurrence of the
source, then normalize every backslash to `/`. -/
def pathRuleApply (v : String) (rule : String × String) : String :=
  pyReplace (pyReplace v rule.1 rule.2) "\\" "/"

/-- The path-mapping loop as a fold over the parsed rules: each rule
acts on the output of the previous one. -/
def remapPathRules (rules : List (String × String)) (v : String) : String :=
  rules.foldl pathRuleApply v

/-- One site rule applied to one value: exact match on the current
value rewrites it. -/
def siteRuleApply (v : String) (rule : String × String) : String :=
  if v = rule.1 then rule.2 else v

/-- The site-mapping loop as a fold over the parsed rules. -/
def remapSiteRules (rules : List (String × String)) (v : String) : String :=
  rules.foldl siteRuleApply v

/-- A transfer row after path remapping of both path columns. -/
def remapTransferRow (rules : List (String × String)) (r : TransferRow) : TransferRow :=
  { r with src := remapPathRules rules r.src, dest := remapPathRules rules r.dest }

/-- Whether a per-record computation completed without raising. -/
def exceptOk {α : Type} : Except PyErr α → Bool
  | Except.ok _ => true
  | Except.error _ => false

/-!
## Claim fixtures
-/

/-- C1 counterexample configuration: plugin category enabled with one
downloader rule. -/
def cfgC1 : Config :=
  { clear := false, nt_db_path := "/config/user.db", path := "", downloader := "1:2",
    site := "", transfer := false, plugin := true, download := false }

/-- A record of a plugin id with no rewrite branch: stored verbatim. -/
def rowC1good : PluginRow := { plugin_id := "CustomHosts", key := "k1", value := "v1" }

/-- A cross-seed transfer record whose value is not JSON. -/
def rowC1bad : PluginRow := { plugin_id := "TorrentTransfer", key := "1-abc", value := "not json" }

/-- A record positioned after the malformed one. -/
def rowC1after : PluginRow := { plugin_id := "CustomHosts", key := "k2", value := "v2" }

/-- C1 counterexample database. -/
def dbC1 : NtDb :=
  { transfer_rows := [], plugin_rows := [rowC1good, rowC1bad, rowC1after], download_rows := [] }

/-- C1 witness rule text. -/
def dlW1 : String := "1:2"

/-- C1 witness prefix of cleanly processing records. -/
def preW1 : List PluginRow := [{ plugin_id := "CustomHosts", key := "ka", value := "va" }]

/-- C1 witness record with a truncated JSON value. -/
def badW1 : PluginRow := { plugin_id := "TorrentTransfer", key := "1-def", value := "\x7b" }

/-- C2 record: the spec's own example key under rule `1:2`. -/
def rowC2 : PluginRow :=
  { plugin_id := "TorrentTransfer", key := "1-abc123", value := "\x7b\x7d" }

/-- C4 counterexample configuration: transfer and plugin both enabled. -/
def cfgC4 : Config :=
  { clear := false, nt_db_path := "/config/user.db", path := "", downloader := "",
    site := "", transfer := true, plugin := true, download := false }

/-- C4 counterexample database: no transfer rows, one plugin row. -/
def dbC4 : NtDb :=
  { transfer_rows := [],
    plugin_rows := [{ plugin_id := "CustomHosts", key := "k", value := "v" }],
    download_rows := [] }

/-- C4 witness configuration with `clear` on. -/
def cfgC4w : Config :=
  { clear := true, nt_db_path := "/config/user.db", path := "", downloader := "",
    site := "", transfer := true, plugin := false, download := false }

/-- C4 witness database: empty transfer table. -/
def dbC4w : NtDb := { transfer_rows := [], plugin_rows := [], download_rows := [] }

/-- C5 transfer row kept first. -/
def rowC5a : TransferRow :=
  { src := "/nas/movies/a.mkv", dest := "/media/movies/a.mkv", mode := "link", type := "movie",
    category := "m", title := "A", year := "2020", tmdbid := "100", seasons := "",
    episodes := "", image := "pa", download_hash := "ha", date := "2023-01-01" }

/-- C5 transfer row with an empty destination: must be skipped. -/
def rowC5bad : TransferRow :=
  { src := "/nas/movies/b.mkv", dest := "", mode := "move", type := "movie",
    category := "m", title := "B", year := "2021", tmdbid := "101", seasons := "",
    episodes := "", image := "pb", download_hash := "hb", date := "2023-01-02" }

/-- C5 transfer row kept second. -/
def rowC5c : TransferRow :=
  { src := "/nas/shows/c.mkv", dest := "/media/shows/c.mkv", mode := "copy", type := "tv",
    category := "t", title := "C", year := "2022", tmdbid := "102", seasons := "S01",
    episodes := "E01", image := "pc", download_hash := "hc", date := "2023-01-03" }

/-- C5 configuration: transfer enabled, `clear` on, no path rules. -/
def cfgC5 : Config :=
  { clear := true, nt_db_path := "/config/user.db", path := "", downloader := "",
    site := "", transfer := true, plugin := false, download := false }

/-- C5 database: exactly three transfer rows, one with empty dest. -/
def dbC5 : NtDb :=
  { transfer_rows := [rowC5a, rowC5bad, rowC5c], plugin_rows := [], download_rows := [] }

/-- C7 counterexample row: whitespace-only destination. -/
def rowC7ws : TransferRow :=
  { src := "/nas/movies/w.mkv", dest := " ", mode := "link", type := "movie",
    category := "m", title := "W", year := "2020", tmdbid := "103", seasons := "",
    episodes := "", image := "", download_hash := "hw", date := "2023-01-04" }

/-- C7 witness row that is kept. -/
def rowC7a : TransferRow :=
  { src := "/x/a.mkv", dest := "/y/a.mkv", mode := "link", type := "movie",
    category := "m", title := "A7", year := "2020", tmdbid := "104", seasons := "",
    episodes := "", image := "", download_hash := "h7a", date := "2023-01-05" }

/-- C7 witness row with an empty source: skipped. -/
def rowC7b : TransferRow :=
  { src := "", dest := "/y/b.mkv", mode := "link", type := "movie",
    category := "m", title := "B7", year := "2020", tmdbid := "105", seasons := "",
    episodes := "", image := "", download_hash := "h7b", date := "2023-01-06" }

/-- C8 witness configuration. -/
def cfgC8 : Config :=
  { clear := false, nt_db_path := "/config/user.db", path := "", downloader := "",
    site := "", transfer := true, plugin := false, download := false }

/-- C8 witness transfer row. -/
def rowC8 : TransferRow :=
  { src := "/a/f.mkv", dest := "/b/f.mkv", mode := "link", type := "movie",
    category := "m", title := "F", year := "2019", tmdbid := "106", seasons := "",
    episodes := "", image := "", download_hash := "h8", date := "2023-01-07" }

/-- C8 witness database. -/
def dbC8 : NtDb := { transfer_rows := [rowC8], plugin_rows := [], download_rows := [] }

/-- C8 witness trace: the one add, then the config update. -/
def traceC8 : List StoreOp :=
  [StoreOp.transferAdd rowC8, StoreOp.updateConfig (update_config_payload cfgC8)]

/-- C9 witness configuration A. -/
def cfgC9a : Config :=
  { clear := false, nt_db_path := "/config/user.db", path := "p", downloader := "d",
    site := "s", transfer := true, plugin := false, download := false }

/-- C9 witness configuration B: same category flags as A, every other
field different. -/
def cfgC9b : Config :=
  { clear := true, nt_db_path := "", path := "", downloader := "",
    site := "", transfer := true, plugin := false, download := false }

/-- C10 witness row with a save path. -/
def rowC10 : NtDownloadRow :=
  { save_path := some "/downloads/movies/f.mkv", type := "movie", title := "F",
    year := "2020", tmdbid := "107", seasons := "", episodes := "", poster := "",
    download_id := "d10", torrent := "t10", desc := "", site := "SiteA" }

/-- C10 witness row filtered out by the `WHERE` clause. -/
def rowC10n : NtDownloadRow :=
  { save_path := none, type := "movie", title := "G",
    year := "2021", tmdbid := "108", seasons := "", episodes := "", poster := "",
    download_id := "d11", torrent := "t11", desc := "", site := "SiteB" }

/-- C10 witness table. -/
def tableC10 : List NtDownloadRow := [rowC10, rowC10n]

/-!
## Helper lemmas
-/

/-- With enough fuel, replacing a single-character pattern rewrites the
string character-wise: every occurrence, at every position, is replaced. -/
theorem replFuel_single (c : Char) (rep : List Char) :
    ∀ (l : List Char) (n : Nat), l.length ≤ n →
      replFuel [c] rep n l = (l.map (fun d => if d = c then rep else [d])).flatten := by
  intro l
  induction l with
  | nil => intro n _; cases n <;> simp [replFuel]
  | cons d rest ih =>
    intro n hn
    cases n with
    | zero => simp at hn
    | succ m =>
      have hm : rest.length ≤ m := by simpa using hn
      by_cases hdc : d = c
      · subst hdc
        simp [replFuel, List.isPrefixOf, ih m hm]
      · have hpre : [c].isPrefixOf (d :: rest) = false := by
          simp [List.isPrefixOf]
          intro h
          exact absurd h.symm hdc
        simp [replFuel, hpre, hdc, ih m hm]

/-- `str.replace` with a one-character pattern is a character map:
every occurrence of the character is replaced, not only the first. -/
theorem pyReplace_single (c : Char) (q v : String) :
    pyReplace v (String.mk [c]) q =
      String.mk ((v.data.map (fun d => if d = c then q.data else [d])).flatten) := by
  simp [pyReplace]
  exact congrArg String.mk (replFuel_single c q.data v.data v.data.length le_rfl)

/-- The path loop under a fully parsed rule text is the fold of the
per-rule rewrites. -/
theorem remapPathLoop_ok :
    ∀ (lines : List String) (rules : List (String × String)) (v : String),
      parseRuleLines.parseLinesGo lines = Except.ok rules →
      remapPathLoop lines v = Except.ok (remapPathRules rules v) := by
  intro lines
  induction lines with
  | nil =>
    intro rules v h
    simp [parseRuleLines.parseLinesGo] at h
    subst h
    simp [remapPathLoop, remapPathRules]
  | cons line rest ih =>
    intro rules v h
    simp only [parseRuleLines.parseLinesGo] at h
    rcases h1 : (pySplit line ':').get? 1 with _ | p1
    · rw [h1] at h; exact absurd h (by simp)
    · rw [h1] at h
      rcases h2 : parseRuleLines.parseLinesGo rest with e | rs
      · rw [h2] at h; exact absurd h (by simp)
      · rw [h2] at h
        simp only [Except.ok.injEq] at h
        subst h
        simp only [remapPathLoop, h1, remapPathRules, List.foldl_cons]
        exact ih rs _ h2

/-- The site loop under a fully parsed rule text is the fold of the
per-rule rewrites (each rule sees the current, possibly rewritten,
value). -/
theorem remapSiteLoop_ok :
    ∀ (lines : List String) (rules : List (String × String)) (v : String),
      parseRuleLines.parseLinesGo lines = Except.ok rules →
      remapSiteLoop lines v = Except.ok (remapSiteRules rules v) := by
  intro lines
  induction lines with
  | nil =>
    intro rules v h
    simp [parseRuleLines.parseLinesGo] at h
    subst h
    simp [remapSiteLoop, remapSiteRules]
  | cons line rest ih =>
    intro rules v h
    simp only [parseRuleLines.parseLinesGo] at h
    rcases h1 : (pySplit line ':').get? 1 with _ | p1
    · rw [h1] at h; exact absurd h (by simp)
    · rw [h1] at h
      rcases h2 : parseRuleLines.parseLinesGo rest with e | rs
      · rw [h2] at h; exact absurd h (by simp)
      · rw [h2] at h
        simp only [Except.ok.injEq] at h
        subst h
        by_cases hv : v = (pySplit line ':').headD ""
        · simp only [remapSiteLoop, h1, if_pos hv, remapSiteRules, List.foldl_cons,
            siteRuleApply, if_pos hv]
          exact ih rs _ h2
        · simp only [remapSiteLoop, h1, if_neg hv, remapSiteRules, List.foldl_cons,
            siteRuleApply, if_neg hv]
          exact ih rs _ h2

/-- If every record of a prefix processes cleanly and the next record
raises, the record loop emits exactly the prefix's saves and surfaces
that record's exception; nothing after the bad record is written. -/
theorem syncPluginRows_abort (dl : String) :
    ∀ (pre : List PluginRow) (bad : PluginRow) (rest : List PluginRow) (e : PyErr),
      pre.all (fun r => exceptOk (processRow dl r)) = true →
      processRow dl bad = Except.error e →
      syncPluginRows dl (pre ++ bad :: rest) = ((syncPluginRows dl pre).1, some e) := by
  intro pre
  induction pre with
  | nil =>
    intro bad rest e _ hbad
    simp [syncPluginRows, hbad]
  | cons r pre' ih =>
    intro bad rest e hall hbad
    simp only [List.all_cons, Bool.and_eq_true] at hall
    rcases hq : processRow dl r with e' | kv
    · rw [hq] at hall; simp [exceptOk] at hall
    · rcases kv with ⟨key, val⟩
      simp only [List.cons_append, syncPluginRows, hq]
      simp [List.append_eq, ih bad rest e hall.2 hbad]

/-- Under a parseable rule text, the transfer record loop emits exactly
one `add` per row whose raw source and destination are both non-empty
(no trimming), in order, with both paths remapped, and never raises. -/
theorem syncTransferRows_eq (pathText : String) (rules : List (String × String))
    (hparse : parseRuleLines pathText = Except.ok rules) :
    ∀ rows : List TransferRow,
      syncTransferRows pathText rows =
        ((rows.filter (fun r => !(r.src == "" || r.dest == ""))).map
          (fun r => StoreOp.transferAdd (remapTransferRow rules r)), none) := by
  have hval : ∀ v : String, remapPathValue pathText v = Except.ok (remapPathRules rules v) := by
    intro v
    by_cases ht : pathText = ""
    · rw [ht] at hparse
      simp [parseRuleLines] at hparse
      subst hparse
      simp [remapPathValue, ht, remapPathRules]
    · rw [parseRuleLines, if_neg ht] at hparse
      rw [remapPathValue, if_neg ht]
      exact remapPathLoop_ok _ rules v hparse
  intro rows
  induction rows with
  | nil => simp [syncTransferRows]
  | cons r rest ih =>
    by_cases hskip : (r.src == "" || r.dest == "") = true
    · simp only [syncTransferRows, hskip, if_true, List.filter_cons]
      simp [hskip, ih]
    · have hkeep : (r.src == "" || r.dest == "") = false := by
        simpa using hskip
      simp only [syncTransferRows, hkeep, Bool.false_eq_true, if_false, List.filter_cons]
      rw [remapPaths, hval r.src, hval r.dest]
      simp [hkeep, ih, remapTransferRow]

/-- Every `add` the download record loop issues carries the basename of
some input row's (non-`NULL`) save path. -/
theorem syncDownloadRows_path (siteText : String) :
    ∀ (rows : List NtDownloadRow) (rec : DownloadRecord),
      StoreOp.downloadAdd rec ∈ (syncDownloadRows siteText rows).1 →
      ∃ r ∈ rows, ∃ p, r.save_path = some p ∧ rec.path = pyBasename p := by
  intro rows
  induction rows with
  | nil => intro rec h; simp [syncDownloadRows] at h
  | cons r rest ih =>
    intro rec h
    rcases hs : remapSiteValue siteText r.site with e | site2
    · rw [syncDownloadRows, hs] at h
      simp at h
    · rw [syncDownloadRows, hs] at h
      rcases hp : r.save_path with _ | p
      · rw [hp] at h; simp at h
      · rw [hp] at h
        simp only [List.mem_cons] at h
        rcases h with h | h
        · refine ⟨r, List.mem_cons_self r rest, p, hp, ?_⟩
          have := congrArg
            (fun op => match op with
              | StoreOp.downloadAdd rec => rec.path
              | _ => "") h
          simpa using this
        · rcases ih rec h with ⟨r2, hr2, p2, hp2, hpath⟩
          exact ⟨r2, List.mem_cons_of_mem r hr2, p2, hp2, hpath⟩

/-- Path remapping of one value under a parseable rule text is the fold
of the parsed rules. -/
theorem remapPathValue_ok (pathText : String) (rules : List (String × String))
    (hparse : parseRuleLines pathText = Except.ok rules) (v : String) :
    remapPathValue pathText v = Except.ok (remapPathRules rules v) := by
  by_cases ht : pathText = ""
  · rw [ht] at hparse
    simp [parseRuleLines] at hparse
    subst hparse
    simp [remapPathValue, ht, remapPathRules]
  · rw [parseRuleLines, if_neg ht] at hparse
    rw [remapPathValue, if_neg ht]
    exact remapPathLoop_ok _ rules v hparse

/-- Site remapping of one value under a parseable rule text is the fold
of the parsed rules. -/
theorem remapSiteValue_ok (siteText : String) (rules : List (String × String))
    (hparse : parseRuleLines siteText = Except.ok rules) (v : String) :
    remapSiteValue siteText v = Except.ok (remapSiteRules rules v) := by
  by_cases ht : siteText = ""
  · rw [ht] at hparse
    simp [parseRuleLines] at hparse
    subst hparse
    simp [remapSiteValue, ht, remapSiteRules]
  · rw [parseRuleLines, if_neg ht] at hparse
    rw [remapSiteValue, if_neg ht]
    exact remapSiteLoop_ok _ rules v hparse

/-- The downloader-rule loop composes sequentially: running a rule list
split anywhere equals running the first part and feeding its rewritten
key/value into the second part — every later rule acts on the output of
the earlier ones. -/
theorem processRules_append (pid : String) :
    ∀ (lines1 lines2 : List String) (key : String) (val : PVal),
      processRules pid (lines1 ++ lines2) key val =
        (processRules pid lines1 key val).bind
          (fun kv => processRules pid lines2 kv.1 kv.2) := by
  intro lines1
  induction lines1 with
  | nil => intro lines2 key val; rfl
  | cons line rest ih =>
    intro lines2 key val
    rcases h1 : (if pid = "TorrentTransfer" then ttRuleStep (pySplit line ':') key val
        else Except.ok (key, val)) with e | ⟨key2, val2⟩
    · simp only [List.cons_append, processRules, h1]
      rfl
    · rcases h2 : (if pid = "IYUUAutoSeed" then iyuuRuleStep (pySplit line ':') val2
          else Except.ok val2) with e | val3
      · simp only [List.cons_append, processRules, h1, h2]
        rfl
      · simp only [List.cons_append, processRules, h1, h2]
        exact ih lines2 key2 val3

/-!
## Claims
-/

/-- C1, counterexample.  The claim says a plugin record that needs
rewriting but has a malformed JSON value is skipped with the run
continuing and no exception crossing the coordinator boundary.  On the
concrete run `cfgC1`/`dbC1`, the record after the malformed one is
never saved and `init_plugin` surfaces the decode exception: nothing
catches `json.loads`' error. -/
theorem c1_counterexample :
    (init_plugin cfgC1 dbC1).2 = some PyErr.jsonDecodeError ∧
    (init_plugin cfgC1 dbC1).1 = [StoreOp.pluginSave "CustomHosts" "k1" (PVal.s "v1")] :=
  ⟨rfl, rfl⟩

/-- C1, amended: a malformed JSON value in a record that must be
rewritten is not skipped — the decode error aborts the plugin-record
sync at that record and propagates outward; records before it are
already saved, records after it are never processed (the trace equals
the trace of the prefix alone). -/
theorem c1_amended (clear : Bool) (dl : String) (pre : List PluginRow) (bad : PluginRow)
    (rest : List PluginRow) (e : PyErr)
    (hpre : pre.all (fun r => exceptOk (processRow dl r)) = true)
    (hbad : processRow dl bad = Except.error e) :
    (sync_plugin_history clear dl (some (pre ++ bad :: rest))).2 = some e ∧
    (sync_plugin_history clear dl (some (pre ++ bad :: rest))).1 =
      (sync_plugin_history clear dl (some pre)).1 := by
  have h := syncPluginRows_abort dl pre bad rest e hpre hbad
  exact ⟨by simp [sync_plugin_history, h], by simp [sync_plugin_history, h]⟩

/-- C1, witness for the amended theorem at a concrete prefix, malformed
record and rule. -/
theorem c1_amended_witness :
    preW1.all (fun r => exceptOk (processRow dlW1 r)) = true ∧
    processRow dlW1 badW1 = Except.error PyErr.jsonDecodeError ∧
    (sync_plugin_history true dlW1 (some (preW1 ++ badW1 :: []))).2 =
      some PyErr.jsonDecodeError ∧
    (sync_plugin_history true dlW1 (some (preW1 ++ badW1 :: []))).1 =
      (sync_plugin_history true dlW1 (some preW1)).1 :=
  ⟨rfl, rfl,
   (c1_amended true dlW1 preW1 badW1 [] PyErr.jsonDecodeError rfl rfl).1,
   (c1_amended true dlW1 preW1 badW1 [] PyErr.jsonDecodeError rfl rfl).2⟩

/-- C2: the spec requires key `"1-abc123"` under rule `"1:2"` to become
`"2-abc123"`, rewriting only the downloader-index component.  The code
calls `plugin_key.replace(keys[0], sub_downloaders[1])`, which replaces
every occurrence of `"1"` — including the one inside the hash — so the
record is saved under `"2-abc223"`: the hash component is corrupted.
This contradicts the evident intent (the key's hash addresses a torrent
and must stay aligned with the value's `to_download_id`), so it is a
code bug, witnessed here by evaluating the embedded record processing at
the failing input. -/
theorem c2_code_eval :
    processRow "1:2" rowC2 = Except.ok ("2-abc223", PVal.j (Json.obj [])) ∧
    ("2-abc223" : String) ≠ "2-abc123" :=
  ⟨rfl, by decide⟩

/-- C3, counterexample.  The claim says a path rule replaces only the
first occurrence and that a value matching no rule is returned
unchanged.  Under rule `"a:b"`, the value `"aa"` becomes `"bb"` (every
occurrence), not `"ba"`; and the value `"x\y"`, which rule `"a:b"` does
not match, is still changed by the unconditional separator
normalization. -/
theorem c3_counterexample :
    remapPathValue "a:b" "aa" = Except.ok "bb" ∧ ("bb" : String) ≠ "ba" ∧
    remapPathValue "a:b" "x\\y" = Except.ok "x/y" ∧ ("x/y" : String) ≠ "x\\y" :=
  ⟨rfl, by decide, rfl, by decide⟩

/-- C3, amended: under a parseable rule text, the path remapping is the
in-order fold of the rules, where each rule replaces every occurrence
of its source (shown character-wise for one-character sources: the
rewrite is a per-character map, so all positions are rewritten) and
then normalizes every backslash to `/` — also for values no rule
matched. -/
theorem c3_amended :
    (∀ (pathText : String) (rules : List (String × String)) (v : String),
        parseRuleLines pathText = Except.ok rules →
        remapPathValue pathText v = Except.ok (remapPathRules rules v)) ∧
    (∀ (c : Char) (q v : String),
        pyReplace v (String.mk [c]) q =
          String.mk ((v.data.map (fun d => if d = c then q.data else [d])).flatten)) :=
  ⟨fun pathText rules v hparse => remapPathValue_ok pathText rules hparse v,
   fun c q v => pyReplace_single c q v⟩

/-- C3, witness for the amended theorem at a concrete rule text, value
and single-character replacement. -/
theorem c3_amended_witness :
    parseRuleLines "a:b\nc:d" = Except.ok [("a", "b"), ("c", "d")] ∧
    remapPathValue "a:b\nc:d" "canal" =
      Except.ok (remapPathRules [("a", "b"), ("c", "d")] "canal") ∧
    pyReplace "aa" (String.mk ['a']) "b" =
      String.mk ((("aa" : String).data.map (fun d => if d = 'a' then ("b" : String).data else [d])).flatten) :=
  ⟨rfl, c3_amended.1 "a:b\nc:d" [("a", "b"), ("c", "d")] "canal" rfl,
   c3_amended.2 'a' "b" "aa"⟩

/-- C4, counterexample.  The claim says an enabled category with zero
external rows yields an empty extraction and the run continues with the
remaining categories.  Concretely, with transfer and plugin both
enabled and an empty transfer table, the extractor returns `None` (not
an empty sequence), and the run aborts with a `TypeError` before the
plugin category or the config update ever run: the trace is empty even
though a plugin row was waiting. -/
theorem c4_counterexample :
    get_nt_transfer_history ([] : List TransferRow) = none ∧
    init_plugin cfgC4 dbC4 = ([], some PyErr.typeError) :=
  ⟨rfl, rfl⟩

/-- C4, amended: for an enabled transfer category with zero external
rows, extraction returns `None` after logging at error level; the
category sync then raises `TypeError` iterating `None` (after the
optional truncate already executed), aborting the run — later
categories do not execute and the configuration is not updated. -/
theorem c4_amended (cfg : Config) (db : NtDb)
    (hdb : cfg.nt_db_path ≠ "") (ht : cfg.transfer = true) (hrows : db.transfer_rows = []) :
    init_plugin cfg db =
      ((if cfg.clear then [StoreOp.transferTruncate] else []), some PyErr.typeError) := by
  have hcond : ((cfg.nt_db_path != "") && (cfg.transfer || cfg.plugin || cfg.download)) = true := by
    simp [ht, bne_iff_ne, hdb]
  rw [init_plugin, if_pos hcond, ht]
  simp [hrows, get_nt_transfer_history, sync_transfer_history]

/-- C4, witness for the amended theorem: enabled transfer category,
`clear` on, empty transfer table. -/
theorem c4_amended_witness :
    cfgC4w.nt_db_path ≠ "" ∧ cfgC4w.transfer = true ∧ dbC4w.transfer_rows = [] ∧
    init_plugin cfgC4w dbC4w = ([StoreOp.transferTruncate], some PyErr.typeError) :=
  ⟨by decide, rfl, rfl, (c4_amended cfgC4w dbC4w (by decide) rfl rfl).trans rfl⟩

/-- C5: with exactly three external transfer rows of which one has an
empty destination, `clear` on and no path rules, the full run issues —
in this order — one transfer truncate, the two appends for the intact
rows, and the final config update; no other store write and no
exception. -/
theorem c5_trace :
    init_plugin cfgC5 dbC5 =
      ([StoreOp.transferTruncate, StoreOp.transferAdd rowC5a, StoreOp.transferAdd rowC5c,
        StoreOp.updateConfig (update_config_payload cfgC5)], none) :=
  rfl

/-- C6, counterexample.  The claim says the first matching rule wins and
later rules never rewrite the value further.  With site rules
`"a:b"` then `"b:c"`, the input `"a"` is rewritten by the first rule to
`"b"` and then again by the second rule to `"c"` — the output of a
first-match-wins semantics would be `"b"`. -/
theorem c6_counterexample :
    remapSiteValue "a:b\nb:c" "a" = Except.ok "c" ∧ ("c" : String) ≠ "b" :=
  ⟨rfl, by decide⟩

/-- C6, amended: for every remap rule set — site-name, path-prefix and
downloader-index alike — rules are applied sequentially and
cumulatively, each rule rewriting the current (possibly already
rewritten) value: the site and path loops are the left folds of their
per-rule rewrites, both folds compose across any split of the rule
list, and the downloader loop composes sequentially the same way, its
later rule lines receiving the key and value already rewritten by the
earlier ones — not first-match-wins against the original value. -/
theorem c6_amended :
    (∀ (siteText : String) (rules : List (String × String)) (v : String),
        parseRuleLines siteText = Except.ok rules →
        remapSiteValue siteText v = Except.ok (remapSiteRules rules v)) ∧
    (∀ (pathText : String) (rules : List (String × String)) (v : String),
        parseRuleLines pathText = Except.ok rules →
        remapPathValue pathText v = Except.ok (remapPathRules rules v)) ∧
    (∀ (rules1 rules2 : List (String × String)) (v : String),
        remapSiteRules (rules1 ++ rules2) v = remapSiteRules rules2 (remapSiteRules rules1 v)) ∧
    (∀ (rules1 rules2 : List (String × String)) (v : String),
        remapPathRules (rules1 ++ rules2) v = remapPathRules rules2 (remapPathRules rules1 v)) ∧
    (∀ (pid : String) (lines1 lines2 : List String) (key : String) (val : PVal),
        processRules pid (lines1 ++ lines2) key val =
          (processRules pid lines1 key val).bind
            (fun kv => processRules pid lines2 kv.1 kv.2)) :=
  ⟨fun siteText rules v hparse => remapSiteValue_ok siteText rules hparse v,
   fun pathText rules v hparse => remapPathValue_ok pathText rules hparse v,
   fun rules1 rules2 v => List.foldl_append siteRuleApply v rules1 rules2,
   fun rules1 rules2 v => List.foldl_append pathRuleApply v rules1 rules2,
   fun pid lines1 lines2 key val => processRules_append pid lines1 lines2 key val⟩

/-- C6, witness for the amended theorem: chaining site rules, chaining
path rules, and two chaining downloader rules — `"1:2"` rewrites the
`TorrentTransfer` key `"1-xyz"` to `"2-xyz"` and the later rule
`"2:3"` then rewrites that output to `"3-xyz"`. -/
theorem c6_amended_witness :
    parseRuleLines "x:y\ny:z" = Except.ok [("x", "y"), ("y", "z")] ∧
    remapSiteValue "x:y\ny:z" "x" =
      Except.ok (remapSiteRules [("x", "y"), ("y", "z")] "x") ∧
    parseRuleLines "p:q\nq:r" = Except.ok [("p", "q"), ("q", "r")] ∧
    remapPathValue "p:q\nq:r" "p" =
      Except.ok (remapPathRules [("p", "q"), ("q", "r")] "p") ∧
    remapSiteRules ([("x", "y")] ++ [("y", "z")]) "x" =
      remapSiteRules [("y", "z")] (remapSiteRules [("x", "y")] "x") ∧
    remapPathRules ([("p", "q")] ++ [("q", "r")]) "p" =
      remapPathRules [("q", "r")] (remapPathRules [("p", "q")] "p") ∧
    processRules "TorrentTransfer" (["1:2"] ++ ["2:3"]) "1-xyz" (PVal.s "\x7b\x7d") =
      (processRules "TorrentTransfer" ["1:2"] "1-xyz" (PVal.s "\x7b\x7d")).bind
        (fun kv => processRules "TorrentTransfer" ["2:3"] kv.1 kv.2) ∧
    processRules "TorrentTransfer" ["1:2", "2:3"] "1-xyz" (PVal.s "\x7b\x7d") =
      Except.ok ("3-xyz", PVal.j (Json.obj [])) :=
  ⟨rfl, c6_amended.1 "x:y\ny:z" [("x", "y"), ("y", "z")] "x" rfl,
   rfl, c6_amended.2.1 "p:q\nq:r" [("p", "q"), ("q", "r")] "p" rfl,
   c6_amended.2.2.1 [("x", "y")] [("y", "z")] "x",
   c6_amended.2.2.2.1 [("p", "q")] [("q", "r")] "p",
   c6_amended.2.2.2.2 "TorrentTransfer" ["1:2"] ["2:3"] "1-xyz" (PVal.s "\x7b\x7d"),
   rfl⟩

/-- C7, counterexample.  The claim says a row whose destination is empty
after trimming is skipped.  The code performs no trimming: the row with
destination `" "` — empty after stripping — is written verbatim. -/
theorem c7_counterexample :
    pyStripChars (" " : String).data = [] ∧
    sync_transfer_history false "" (some [rowC7ws]) =
      ([StoreOp.transferAdd rowC7ws], none) :=
  ⟨rfl, rfl⟩

/-- C7, amended: the record loop skips exactly the rows whose raw source
or destination equals the empty string — no trimming, so whitespace-only
paths are kept — and emits one add, in order, for every other row, with
both paths remapped under the parsed rules, raising nothing. -/
theorem c7_amended (clear : Bool) (pathText : String) (rules : List (String × String))
    (rows : List TransferRow) (hparse : parseRuleLines pathText = Except.ok rules) :
    sync_transfer_history clear pathText (some rows) =
      ((if clear then [StoreOp.transferTruncate] else []) ++
        (rows.filter (fun r => !(r.src == "" || r.dest == ""))).map
          (fun r => StoreOp.transferAdd (remapTransferRow rules r)), none) := by
  have h := syncTransferRows_eq pathText rules hparse rows
  simp [sync_transfer_history, h]

/-- C7, witness for the amended theorem: one kept row, one row with an
empty source. -/
theorem c7_amended_witness :
    parseRuleLines "" = Except.ok [] ∧
    sync_transfer_history false "" (some [rowC7a, rowC7b]) =
      ([StoreOp.transferAdd rowC7a], none) :=
  ⟨rfl, (c7_amended false "" [] [rowC7a, rowC7b] rfl).trans rfl⟩

/-- C8: whenever a run with the db path set and at least one category
enabled completes without an exception, its last store operation is the
config update whose payload has `clear` and all three category flags
`False` while the db path and the three rule texts are carried over
unchanged; re-running `init_plugin` on that persisted config performs
no work at all (no store writes, no error), so a re-trigger does not
re-import. -/
theorem c8_config_update (cfg : Config) (db : NtDb) (trace : List StoreOp)
    (henabled : ((cfg.nt_db_path != "") && (cfg.transfer || cfg.plugin || cfg.download)) = true)
    (hrun : init_plugin cfg db = (trace, none)) :
    trace.getLast? = some (StoreOp.updateConfig (update_config_payload cfg)) ∧
    update_config_payload cfg =
      { clear := false, nt_db_path := cfg.nt_db_path, path := cfg.path,
        downloader := cfg.downloader, site := cfg.site,
        transfer := false, plugin := false, download := false } ∧
    init_plugin (update_config_payload cfg) db = ([], none) := by
  refine ⟨?_, rfl, ?_⟩
  · rw [init_plugin, if_pos henabled] at hrun
    split at hrun
    · simp at hrun
    · split at hrun
      · simp at hrun
      · split at hrun
        · simp at hrun
        · rw [Prod.mk.injEq] at hrun
          rw [← hrun.1]
          exact List.getLast?_concat _
  · rw [init_plugin]
    simp [update_config_payload]

/-- C8, witness: a concrete successful run whose last operation is the
config update, and whose persisted config makes a re-trigger a no-op. -/
theorem c8_config_update_witness :
    traceC8.getLast? = some (StoreOp.updateConfig (update_config_payload cfgC8)) ∧
    init_plugin (update_config_payload cfgC8) dbC8 = ([], none) :=
  ⟨(c8_config_update cfgC8 dbC8 traceC8 rfl rfl).1,
   (c8_config_update cfgC8 dbC8 traceC8 rfl rfl).2.2⟩

/-- C9: `get_state` is `True` exactly when at least one of the three
category flags is set, and depends on nothing else — two configurations
agreeing on the three flags report the same state regardless of db
path, rule texts or the clear flag. -/
theorem c9_get_state (cfg cfg2 : Config) :
    (get_state cfg = true ↔
      (cfg.transfer = true ∨ cfg.plugin = true ∨ cfg.download = true)) ∧
    (cfg2.transfer = cfg.transfer → cfg2.plugin = cfg.plugin → cfg2.download = cfg.download →
      get_state cfg2 = get_state cfg) := by
  constructor
  · simp [get_state, or_assoc]
  · intro h1 h2 h3
    simp [get_state, h1, h2, h3]

/-- C9, witness: two configurations differing in every non-flag field
report the same state. -/
theorem c9_get_state_witness :
    (get_state cfgC9a = true ↔
      (cfgC9a.transfer = true ∨ cfgC9a.plugin = true ∨ cfgC9a.download = true)) ∧
    get_state cfgC9b = get_state cfgC9a :=
  ⟨(c9_get_state cfgC9a cfgC9b).1, (c9_get_state cfgC9a cfgC9b).2 rfl rfl rfl⟩

/-- C10: whatever the download extractor hands to the sync step consists
only of rows with a non-`NULL` save path (the query's `WHERE` clause),
and consequently every download record the sync step writes carries the
basename of one of those non-`NULL` paths — the basename of `NULL` is
never taken. -/
theorem c10_save_path (table rows : List NtDownloadRow) (clear : Bool) (siteText : String)
    (hx : get_nt_download_history table = some rows) :
    rows.all (fun r => r.save_path.isSome) = true ∧
    (sync_download_history clear siteText (some rows)).1.all (fun op =>
      match op with
      | StoreOp.downloadAdd rec =>
        rows.any (fun r =>
          match r.save_path with
          | some p => rec.path == pyBasename p
          | none => false)
      | _ => true) = true := by
  have hfil : rows = table.filter (fun r => r.save_path.isSome) := by
    simp only [get_nt_download_history] at hx
    split at hx
    · exact absurd hx (by simp)
    · exact (Option.some.injEq _ _ ▸ hx).symm
  constructor
  · rw [List.all_eq_true]
    intro r hr
    rw [hfil] at hr
    simpa using List.of_mem_filter hr
  · rw [List.all_eq_true]
    intro op hop
    simp only [sync_download_history] at hop
    rw [List.mem_append] at hop
    rcases hop with hop | hop
    · cases hc : clear with
      | false => rw [hc] at hop; simp at hop
      | true =>
        rw [hc] at hop
        simp only [if_true, List.mem_singleton] at hop
        subst hop
        rfl
    · cases op with
      | transferTruncate => rfl
      | transferAdd r => rfl
      | pluginTruncate => rfl
      | pluginSave a b c => rfl
      | downloadTruncate => rfl
      | updateConfig c => rfl
      | downloadAdd rec =>
        obtain ⟨r, hr, p, hp, hpath⟩ := syncDownloadRows_path siteText rows rec hop
        simp only []
        rw [List.any_eq_true]
        refine ⟨r, hr, ?_⟩
        rw [hp]
        simpa using hpath

/-- C10, witness: a table with one `NULL`-path row and one real row —
the extractor keeps only the real row and the single written record
carries its basename. -/
theorem c10_save_path_witness :
    get_nt_download_history tableC10 = some [rowC10] ∧
    ([rowC10].all (fun r => r.save_path.isSome) = true ∧
      (sync_download_history false "" (some [rowC10])).1.all (fun op =>
        match op with
        | StoreOp.downloadAdd rec =>
          [rowC10].any (fun r =>
            match r.save_path with
            | some p => rec.path == pyBasename p
            | none => false)
        | _ => true) = true) :=
  ⟨rfl, c10_save_path tableC10 [rowC10] false "" rfl⟩
